import Mathlib

/-!
Shallow embedding of the flux-2-klein demo: the generation proxy
(src/pages/api/generate.ts) and the client-side generation session
controller (the ImageGenerator React component).  JavaScript objects are
modelled by a small JSON value type; JS truthiness, strict string
equality, template stringification and JSON.stringify are modelled
explicitly so that the `a || b || c` fallback chains of the source can be
embedded faithfully.
-/

/-- JSON values, as handled by the proxy and by the provider responses. -/
inductive Json where
  | str (s : String)
  | num (n : Int)
  | bool (b : Bool)
  | null
  | arr (xs : List Json)
  | obj (fields : List (String × Json))

/-- Field lookup in a JSON object; for duplicate keys the last one wins,
as in `JSON.parse`.  Property access on a non-object yields `undefined`
(`none`). -/
def lookupField : List (String × Json) → String → Option Json
  | [], _ => none
  | (k1, v) :: rest, k =>
    match lookupField rest k with
    | some w => some w
    | none => if k1 = k then some v else none

/-- JS property access `j.k`: `none` models `undefined`. -/
def Json.get : Json → String → Option Json
  | .obj fs, k => lookupField fs k
  | _, _ => none

/-- JS truthiness of a possibly-undefined value: `undefined`, `null`,
`false`, `0` and `""` are falsy, everything else is truthy. -/
def jsTruthy : Option Json → Bool
  | none => false
  | some .null => false
  | some (.bool b) => b
  | some (.num n) => n != 0
  | some (.str s) => s != ""
  | some (.arr _) => true
  | some (.obj _) => true

/-- JS strict equality `v === "lit"` of a possibly-undefined value with a
string literal. -/
def strictEqStr (v : Option Json) (s : String) : Bool :=
  match v with
  | some (.str t) => t == s
  | _ => false

/-- The JS fallback chain `v1 || v2 || ... || dflt`: the first truthy
value, else the default. -/
def firstTruthy (vs : List (Option Json)) (dflt : Json) : Json :=
  match vs with
  | [] => dflt
  | some x :: rest => if jsTruthy (some x) then x else firstTruthy rest dflt
  | none :: rest => firstTruthy rest dflt

/-- Escaping of one character inside a JSON string literal. -/
def jsonEscapeChar (c : Char) : String :=
  if c = '"' then "\\\""
  else if c = '\\' then "\\\\"
  else if c = '\n' then "\\n"
  else if c = '\r' then "\\r"
  else if c = '\t' then "\\t"
  else String.singleton c

/-- Escaping of a JSON string literal's contents. -/
def jsonEscape (s : String) : String :=
  String.join (s.toList.map jsonEscapeChar)

mutual
/-- Model of `JSON.stringify` on parsed JSON values. -/
def Json.stringify : Json → String
  | .str s => "\"" ++ jsonEscape s ++ "\""
  | .num n => toString n
  | .bool b => cond b "true" "false"
  | .null => "null"
  | .arr xs => "[" ++ String.intercalate "," (stringifyArr xs) ++ "]"
  | .obj fs => "\x7b" ++ String.intercalate "," (stringifyFields fs) ++ "\x7d"

/-- `JSON.stringify` on the elements of an array. -/
def stringifyArr : List Json → List String
  | [] => []
  | x :: rest => Json.stringify x :: stringifyArr rest

/-- `JSON.stringify` on the fields of an object. -/
def stringifyFields : List (String × Json) → List String
  | [] => []
  | (k, v) :: rest => ("\"" ++ jsonEscape k ++ "\":" ++ Json.stringify v) :: stringifyFields rest
end

mutual
/-- Model of JS template stringification `String(v)` of a JSON value. -/
def jsToString : Json → String
  | .str s => s
  | .num n => toString n
  | .bool b => cond b "true" "false"
  | .null => "null"
  | .obj _ => "[object Object]"
  | .arr xs => String.intercalate "," (jsToStringArr xs)

/-- Array elements stringify elementwise, with `null` becoming empty. -/
def jsToStringArr : List Json → List String
  | [] => []
  | .null :: rest => "" :: jsToStringArr rest
  | x :: rest => jsToString x :: jsToStringArr rest
end

/-- JS template stringification of a possibly-undefined value. -/
def jsDisplay : Option Json → String
  | none => "undefined"
  | some v => jsToString v

/-- An HTTP response as observed by the proxy: `ok`, `status`, the body
parsed as JSON when parseable (`res.json()` succeeds iff `body = some j`),
and the raw body text (`res.text()`). -/
structure FetchResult where
  ok : Bool
  status : Nat
  body : Option Json
  text : String

/-- The outcome of one generation request, as serialized by the proxy:
either `{ url }` with HTTP status 200, or `{ error }` with the given
HTTP status. -/
inductive ProxyResult where
  | success (url : Json)
  | failure (error : Json) (status : Nat)

/-- The HTTP status the proxy responds with. -/
def ProxyResult.statusCode : ProxyResult → Nat
  | .success _ => 200
  | .failure _ st => st

/-- Error-message extraction of generate.ts (lines 52-59 and 92-99):
start from the generic message, overwrite with
`detail || message || error || JSON.stringify(body)` when the body
parses as JSON, else with the raw text when non-empty. -/
def extractErrorMessage (res : FetchResult) (generic : String) : Json :=
  match res.body with
  | some j =>
    firstTruthy [j.get "detail", j.get "message", j.get "error"] (.str (Json.stringify j))
  | none => if res.text = "" then .str generic else .str res.text

/-- Optional chaining `result.result?.sample` on a poll response body. -/
def resultSample (j : Json) : Option Json :=
  match j.get "result" with
  | some v => v.get "sample"
  | none => none

/-- What one iteration of the polling loop does with the poll response
(generate.ts lines 92-124). -/
inductive PollStep where
  | keepPolling
  | finish (r : ProxyResult)
  | crash

/-- One iteration of the polling loop on its poll response: non-ok HTTP
terminates with the extracted error and the provider status; `Ready`
with a truthy sample terminates with success; `Pending` continues; any
other status terminates with status 500 and message
`error || message || detail || "Generation failed: <status>"`.
`crash` models `pollRes.json()` throwing on an ok response with an
unparseable body (an unhandled rejection in the source). -/
def pollStep (res : FetchResult) : PollStep :=
  if res.ok = false then
    .finish (.failure (extractErrorMessage res ("Poll error (" ++ toString res.status ++ ")")) res.status)
  else
    match res.body with
    | none => .crash
    | some j =>
      if strictEqStr (j.get "status") "Ready" && jsTruthy (resultSample j) then
        .finish (.success ((resultSample j).getD Json.null))
      else if strictEqStr (j.get "status") "Pending" then
        .keepPolling
      else
        .finish (.failure
          (firstTruthy [j.get "error", j.get "message", j.get "detail"]
            (.str ("Generation failed: " ++ jsDisplay (j.get "status")))) 500)

/-- Result of running the polling loop against a finite list of poll
responses, together with the number of polls issued.  `exhausted` means
every provided response said `Pending` and the unbounded source loop
would keep polling. -/
inductive PollLoop where
  | done (r : ProxyResult) (polls : Nat)
  | crashed (polls : Nat)
  | exhausted (polls : Nat)

/-- Increment the poll count of a loop outcome. -/
def bumpPolls : PollLoop → PollLoop
  | .done r n => .done r (n + 1)
  | .crashed n => .crashed (n + 1)
  | .exhausted n => .exhausted (n + 1)

/-- The polling loop of generate.ts lines 85-125, run against a list of
successive poll responses. -/
def pollLoop : List FetchResult → PollLoop
  | [] => .exhausted 0
  | r :: rest =>
    match pollStep r with
    | .finish res => .done res 1
    | .crash => .crashed 1
    | .keepPolling => bumpPolls (pollLoop rest)

/-- The request body destructured by the proxy:
`const (prompt, apiKey, image, imageUrl, variant) = await request.json()`;
each field is `none` when absent. -/
structure SubmitRequest where
  prompt : Option Json
  apiKey : Option Json
  image : Option Json
  imageUrl : Option Json
  variant : Option Json

/-- The payload the proxy POSTs to the provider (generate.ts lines
28-40): prompt, fixed 768 by 768, upsampling off, optional reference
image. -/
structure ProviderRequestBody where
  prompt : Json
  width : Nat
  height : Nat
  prompt_upsampling : Bool
  input_image : Option Json

/-- The environment of one proxy invocation: the base64 string that
fetching and encoding the reference-image URL would produce, the
provider's submission response, and its successive poll responses. -/
structure ProxyEnv where
  refBase64 : String
  submitResponse : FetchResult
  pollResponses : List FetchResult

/-- The proxy's overall answer: a serialized result, a crash on an
unparseable ok body, or still polling past the provided responses. -/
inductive ProxyAnswer where
  | answered (r : ProxyResult)
  | crashed
  | stillPolling

/-- Observable outcome of one proxy invocation: the answer, the body
submitted to the provider (when submission happened), and how many
reference-image fetches, submissions and polls were issued. -/
structure ProxyOutcome where
  answer : ProxyAnswer
  sentBody : Option ProviderRequestBody
  refFetches : Nat
  submits : Nat
  polls : Nat

/-- Provider endpoint for the 9b variant. -/
def BFL_API_9B : String := "https://api.bfl.ai/v1/flux-2-klein-9b"

/-- Provider endpoint for the 4b variant. -/
def BFL_API_4B : String := "https://api.bfl.ai/v1/flux-2-klein-4b"

/-- Endpoint selection (generate.ts line 19): strict equality with the
string literal `4b`, anything else maps to the 9b endpoint. -/
def apiUrlFor (variant : Option Json) : String :=
  if strictEqStr variant "4b" then BFL_API_4B else BFL_API_9B

/-- Handling of the submission response and the polling that may follow
(generate.ts lines 52-125): a non-ok submission returns the extracted
error with the provider status; an unparseable ok body crashes
(`submitRes.json()` throws unhandled); a truthy direct `sample` returns
success; a missing `polling_url` returns the 500 protocol failure; else
the polling loop runs.  Returns the answer and the number of polls
issued. -/
def proxySubmitPhase (env : ProxyEnv) : ProxyAnswer × Nat :=
  let sres := env.submitResponse
  if sres.ok = false then
    (.answered (.failure
        (extractErrorMessage sres ("BFL API error (" ++ toString sres.status ++ ")"))
        sres.status), 0)
  else
    match sres.body with
    | none => (.crashed, 0)
    | some j =>
      if jsTruthy (j.get "sample") then
        (.answered (.success ((j.get "sample").getD Json.null)), 0)
      else if jsTruthy (j.get "polling_url") = false then
        (.answered (.failure (.str "No polling URL in response") 500), 0)
      else
        match pollLoop env.pollResponses with
        | .done r n => (.answered r, n)
        | .crashed n => (.crashed, n)
        | .exhausted n => (.stillPolling, n)

/-- The POST handler of generate.ts, lines 17-126.  Validation uses JS
truthiness (`!prompt || !apiKey`) and happens before any network call; a
truthy inline `image` is forwarded as-is and shadows `imageUrl`; a truthy
`imageUrl` is fetched and base64 encoded; then the payload is submitted
and handled by `proxySubmitPhase`. -/
def proxyPost (env : ProxyEnv) (req : SubmitRequest) : ProxyOutcome :=
  if (jsTruthy req.prompt && jsTruthy req.apiKey) = false then
    ⟨.answered (.failure (.str "Missing prompt or API key") 400), none, 0, 0, 0⟩
  else
    let ref : Option Json × Nat :=
      if jsTruthy req.image then (req.image, 0)
      else if jsTruthy req.imageUrl then (some (.str env.refBase64), 1)
      else (none, 0)
    let body : ProviderRequestBody :=
      ⟨req.prompt.getD Json.null, 768, 768, false, ref.1⟩
    let ph := proxySubmitPhase env
    ⟨ph.1, some body, ref.2, 1, ph.2⟩

/-- Model of JS `String.prototype.trim`: strip leading and trailing
whitespace.  Implemented by structural recursion over the character list
so that it evaluates inside the kernel. -/
def jsTrim (s : String) : String :=
  String.mk (((s.toList.dropWhile Char.isWhitespace).reverse.dropWhile Char.isWhitespace).reverse)

/-- JS truthiness of a possibly-absent string (`undefined`, `null` and
`""` are falsy). -/
def strTruthy : Option String → Bool
  | some s => s != ""
  | none => false

/-- State of the ImageGenerator component: the useState hooks plus the
mutable refs (reference image payload, drag counter, whether the
elapsed-time interval is currently running). -/
structure ControllerState where
  apiKey : String
  prompt : String
  modelVariant : String
  isGenerating : Bool
  editMode : Bool
  currentImageUrl : Option String
  previousImageUrl : Option String
  showCurrentImage : Bool
  genTime : String
  isDragOver : Bool
  showLoading : Bool
  loadingComplete : Bool
  referenceImageBase64 : Option String
  dragCounter : Int
  timerRunning : Bool

/-- The initial component state (the useState initializers and refs). -/
def initController : ControllerState :=
  ⟨"", "", "9b", false, false, none, none, false, "", false, false, false, none, 0, false⟩

/-- Side effects observed during one invocation of handleGenerate. -/
structure AttemptEffects where
  networkCalls : Nat
  timerStarts : Nat
  timerStops : Nat
  generatingSet : Nat
  alerts : List String

/-- Body of the `/api/generate` response as the client parses it. -/
structure ClientRespBody where
  url : Option String
  error : Option String

/-- The response the client-side fetch of generateImage observes;
`body = none` models `response.json()` throwing. -/
structure ClientFetch where
  ok : Bool
  status : Nat
  body : Option ClientRespBody

/-- Environment of one generation attempt: the proxy response, whether
the preload `Image` decodes successfully, and the elapsed seconds
rendered when the timer is read (genTime becomes `elapsed ++ "s"`). -/
structure AttemptEnv where
  fetch : ClientFetch
  preloadOk : Bool
  elapsed : String

/-- What a generation attempt can throw: an `Error` (alerted with its
message) or the preload image's error event (alerted as
`Generation failed`). -/
inductive Thrown where
  | err (msg : String)
  | preloadEvent

/-- The alert text chosen in the catch block of handleGenerate
(`error instanceof Error ? error.message : 'Generation failed'`). -/
def alertOf : Thrown → String
  | .err m => m
  | .preloadEvent => "Generation failed"

/-- generateImage (component lines 52-90): abort with an alert when no
API key is configured; otherwise fetch `/api/generate`, throw
`Request failed (<status>)` when the body does not parse, throw
`data.error || Request failed (<status>)` on a non-ok response, else
resolve with `data.url`.  Returns the outcome, the number of network
calls issued and the alerts raised. -/
def generateImage (env : AttemptEnv) (s : ControllerState) :
    Except Thrown (Option String) × Nat × List String :=
  if s.apiKey = "" then
    (.ok none, 0, ["Please enter your BFL API key"])
  else
    match env.fetch.body with
    | none => (.error (.err ("Request failed (" ++ toString env.fetch.status ++ ")")), 1, [])
    | some b =>
      if env.fetch.ok then (.ok b.url, 1, [])
      else
        (.error (.err
          (match b.error with
            | some e => if e = "" then "Request failed (" ++ toString env.fetch.status ++ ")" else e
            | none => "Request failed (" ++ toString env.fetch.status ++ ")")), 1, [])

/-- The request body generateImage sends to the proxy (component lines
58-70): prompt, key, variant, and in edit mode with a current image
either the retained base64 payload (for a local `blob:` image) or the
current image's URL. -/
structure ClientRequest where
  prompt : String
  apiKey : String
  variant : String
  image : Option (Option String)
  imageUrl : Option String

/-- The body built by generateImage for a given prompt text. -/
def clientRequestOf (s : ControllerState) (promptText : String) : ClientRequest :=
  if s.editMode && strTruthy s.currentImageUrl then
    match s.currentImageUrl with
    | some u =>
      if u.startsWith "blob:" then ⟨promptText, s.apiKey, s.modelVariant, some s.referenceImageBase64, none⟩
      else ⟨promptText, s.apiKey, s.modelVariant, none, some u⟩
    | none => ⟨promptText, s.apiKey, s.modelVariant, none, none⟩
  else ⟨promptText, s.apiKey, s.modelVariant, none, none⟩

/-- handleGenerate (component lines 92-156), run to completion for one
attempt.  The guard drops the attempt when the trimmed prompt is empty
or a generation is already in flight.  Otherwise: enter the generating
state, show the loading overlay, start the elapsed-time interval, await
generateImage; on resolution stop the interval, render the elapsed time
and mark loading complete; a truthy result URL is preloaded and, on
decode success, the current image is demoted to previous and the new URL
promoted to current; any thrown error is caught by stopping the interval
(a second, redundant stop when the throw came from the preload), clearing
genTime, alerting, and hiding the overlay; finally the generating flag is
dropped. -/
def handleGenerate (env : AttemptEnv) (s : ControllerState) :
    ControllerState × AttemptEffects :=
  if jsTrim s.prompt = "" ∨ s.isGenerating = true then
    (s, ⟨0, 0, 0, 0, []⟩)
  else
    let s1 : ControllerState :=
      { s with isGenerating := true, showLoading := true, loadingComplete := false,
               genTime := "0.0s", timerRunning := true }
    match generateImage env s with
    | (.error t, calls, als) =>
      ({ s1 with timerRunning := false, genTime := "", showLoading := false,
                 loadingComplete := false, isGenerating := false },
        ⟨calls, 1, 1, 1, als ++ [alertOf t]⟩)
    | (.ok urlOpt, calls, als) =>
      let s2 : ControllerState :=
        { s1 with timerRunning := false, genTime := env.elapsed ++ "s", loadingComplete := true }
      match urlOpt with
      | none => ({ s2 with isGenerating := false }, ⟨calls, 1, 1, 1, als⟩)
      | some u =>
        if u = "" then ({ s2 with isGenerating := false }, ⟨calls, 1, 1, 1, als⟩)
        else if env.preloadOk then
          let s3 : ControllerState :=
            match s2.currentImageUrl with
            | some c => { s2 with previousImageUrl := some c, showCurrentImage := false }
            | none => s2
          ({ s3 with currentImageUrl := some u, showLoading := false,
                     loadingComplete := false, showCurrentImage := true,
                     isGenerating := false },
            ⟨calls, 1, 1, 1, als⟩)
        else
          ({ s2 with genTime := "", showLoading := false, loadingComplete := false,
                     isGenerating := false },
            ⟨calls, 1, 2, 1, als ++ ["Generation failed"]⟩)

/-- The synchronous segment of one trigger of handleGenerate: the guard,
and when it passes, the state updates and the issuing of the proxy fetch
that happen before the attempt first suspends on the network.  A trigger
with no API key configured completes its whole (network-free) attempt
before any further user event, since it never awaits an external event.
Returns the state as the next trigger observes it and the number of
proxy invocations issued. -/
def triggerSync (s : ControllerState) : ControllerState × Nat :=
  if jsTrim s.prompt = "" ∨ s.isGenerating = true then
    (s, 0)
  else
    let s1 : ControllerState :=
      { s with isGenerating := true, showLoading := true, loadingComplete := false,
               genTime := "0.0s", timerRunning := true }
    if s.apiKey = "" then
      ({ s1 with timerRunning := false, loadingComplete := true, isGenerating := false }, 0)
    else (s1, 1)

/-- A burst of `n` triggers in direct succession (no attempt resolves in
between), counting the total number of proxy invocations issued. -/
def triggerTimes : Nat → ControllerState → ControllerState × Nat
  | 0, s => (s, 0)
  | n + 1, s =>
    let p := triggerSync s
    let q := triggerTimes n p.1
    (q.1, p.2 + q.2)

/-- Drag events handled by the image container. -/
inductive DragEvent where
  | enter
  | leave
  | drop

/-- Effect of one drag event on the drag-tracking state (component lines
165-190): enter increments the counter and raises drag-over, leave
decrements and clears drag-over exactly when the counter hits zero, drop
resets the counter to zero and clears drag-over regardless.  Only the
drag-tracking fields are touched; the file ingestion performed by drop
does not read or write them. -/
def dragStep (s : ControllerState) : DragEvent → ControllerState
  | .enter => { s with dragCounter := s.dragCounter + 1, isDragOver := true }
  | .leave =>
    { s with dragCounter := s.dragCounter - 1,
             isDragOver := if s.dragCounter - 1 = 0 then false else s.isDragOver }
  | .drop => { s with dragCounter := 0, isDragOver := false }

/-- Run a sequence of drag events. -/
def runDrag (s : ControllerState) (es : List DragEvent) : ControllerState :=
  es.foldl dragStep s

/-- A drag-event sequence is well nested from counter value `c` when
every leave occurs while the counter is positive. -/
def dragSafe : Int → List DragEvent → Bool
  | _, [] => true
  | c, .enter :: es => dragSafe (c + 1) es
  | c, .leave :: es => decide (0 < c) && dragSafe (c - 1) es
  | _, .drop :: es => dragSafe 0 es

/-- A value strictly equal to the string `Pending` is not strictly equal
to `Ready`. -/
lemma strictEqStr_pending_not_ready (v : Option Json)
    (hp : strictEqStr v "Pending" = true) : strictEqStr v "Ready" = false := by
  match v with
  | some (.str t) =>
    simp [strictEqStr] at hp ⊢
    subst hp
    decide
  | some (.num n) => simp [strictEqStr] at hp
  | some (.bool b) => simp [strictEqStr] at hp
  | some .null => simp [strictEqStr] at hp
  | some (.arr xs) => simp [strictEqStr] at hp
  | some (.obj fs) => simp [strictEqStr] at hp
  | none => simp [strictEqStr] at hp

/-- An ok poll response whose parsed status is `Pending` makes the loop
continue. -/
lemma pollStep_pending (x : FetchResult) (jx : Json)
    (hok : x.ok = true) (hb : x.body = some jx)
    (hp : strictEqStr (jx.get "status") "Pending" = true) :
    pollStep x = PollStep.keepPolling := by
  unfold pollStep
  simp [hok, hb, hp, strictEqStr_pending_not_ready _ hp]

/-- Prepending ok `Pending` responses to a poll-response list only adds
their count to a terminating run. -/
lemma pollLoop_append_pending (pre l : List FetchResult)
    (hpre : ∀ x ∈ pre, x.ok = true ∧ ∃ jx, x.body = some jx ∧
      strictEqStr (jx.get "status") "Pending" = true)
    (r : ProxyResult) (n : Nat) (hl : pollLoop l = PollLoop.done r n) :
    pollLoop (pre ++ l) = PollLoop.done r (n + pre.length) := by
  induction pre with
  | nil => simpa using hl
  | cons x pre ih =>
    obtain ⟨hok, jx, hb, hp⟩ := hpre x (List.mem_cons_self x pre)
    have hx : pollStep x = PollStep.keepPolling := pollStep_pending x jx hok hb hp
    have ih2 := ih fun y hy => hpre y (List.mem_cons_of_mem x hy)
    simp only [List.cons_append, pollLoop, hx, List.append_eq, ih2, bumpPolls,
      List.length_cons, Nat.add_assoc]

/-- C1: for every polling response sequence, the polling loop terminates
on the first poll whose status is not `Pending` (the later responses are
never consulted and exactly `pre.length + 1` polls are issued): when that
poll's status is `Ready` and a sample is present, the proxy answers
success (serialized with HTTP 200) whose url is the sample; any other
status — including `Ready` with no sample — answers a failure whose
message is `error || message || detail` when one of those fields is
truthy, else the synthesized `Generation failed: <status>`, which
mentions the status. -/
theorem c1_polling_first_non_pending
    (pre rest : List FetchResult) (r : FetchResult) (j : Json)
    (hpre : ∀ x ∈ pre, x.ok = true ∧ ∃ jx, x.body = some jx ∧
      strictEqStr (jx.get "status") "Pending" = true)
    (hok : r.ok = true) (hb : r.body = some j)
    (hnp : strictEqStr (j.get "status") "Pending" = false) :
    pollLoop (pre ++ r :: rest) =
      (if strictEqStr (j.get "status") "Ready" && jsTruthy (resultSample j) then
        PollLoop.done (ProxyResult.success ((resultSample j).getD Json.null)) (pre.length + 1)
      else
        PollLoop.done (ProxyResult.failure
          (firstTruthy [j.get "error", j.get "message", j.get "detail"]
            (Json.str ("Generation failed: " ++ jsDisplay (j.get "status")))) 500)
          (pre.length + 1)) := by
  by_cases hc : (strictEqStr (j.get "status") "Ready" && jsTruthy (resultSample j)) = true
  · have hhead : pollLoop (r :: rest) =
        PollLoop.done (ProxyResult.success ((resultSample j).getD Json.null)) 1 := by
      simp [pollLoop, pollStep, hok, hb, hc]
    rw [pollLoop_append_pending pre (r :: rest) hpre _ 1 hhead, if_pos hc]
    rw [Nat.add_comm]
  · have hc2 : (strictEqStr (j.get "status") "Ready" && jsTruthy (resultSample j)) = false := by
      simpa using hc
    have hhead : pollLoop (r :: rest) =
        PollLoop.done (ProxyResult.failure
          (firstTruthy [j.get "error", j.get "message", j.get "detail"]
            (Json.str ("Generation failed: " ++ jsDisplay (j.get "status")))) 500) 1 := by
      simp [pollLoop, pollStep, hok, hb, hc2, hnp]
    rw [pollLoop_append_pending pre (r :: rest) hpre _ 1 hhead, if_neg (by simp [hc2])]
    rw [Nat.add_comm]

/-- One ok `Pending` poll response. -/
def c1Pend : FetchResult :=
  ⟨true, 200, some (.obj [("status", .str "Pending")]), ""⟩

/-- The parsed body of an ok `Ready` poll response carrying a sample. -/
def c1ReadyJson : Json :=
  .obj [("status", .str "Ready"), ("result", .obj [("sample", .str "https://x/final.png")])]

/-- An ok `Ready` poll response carrying a sample. -/
def c1Ready : FetchResult := ⟨true, 200, some c1ReadyJson, ""⟩

/-- Witness for C1: one `Pending` poll followed by a `Ready` poll with a
sample terminates after exactly two polls with the sample as the url. -/
theorem c1_witness :
    pollLoop [c1Pend, c1Ready] =
      PollLoop.done (ProxyResult.success (Json.str "https://x/final.png")) 2 := by
  have h := c1_polling_first_non_pending [c1Pend] [] c1Ready c1ReadyJson
    (by
      intro x hx
      have hx2 : x = c1Pend := by simpa using hx
      subst hx2
      exact ⟨rfl, .obj [("status", .str "Pending")], rfl, rfl⟩)
    rfl rfl (by decide)
  exact h.trans (by rfl)

/-- A request whose prompt is a single space: non-empty, hence truthy,
but empty after trimming. -/
def c2Req : SubmitRequest := ⟨some (.str " "), some (.str "key"), none, none, none⟩

/-- An environment whose submission response immediately carries a
sample. -/
def c2Env : ProxyEnv :=
  ⟨"", ⟨true, 200, some (.obj [("sample", .str "https://x/img.png")]), ""⟩, []⟩

/-- Counterexample to C2: a prompt that is empty after trimming but not
empty (a single space) passes the proxy's truthiness validation, so the
proxy issues a submission network call and answers success instead of
the claimed 400 validation failure. -/
theorem c2_counterexample :
    jsTrim " " = "" ∧
    (proxyPost c2Env c2Req).submits = 1 ∧
    (proxyPost c2Env c2Req).answer =
      ProxyAnswer.answered (ProxyResult.success (Json.str "https://x/img.png")) :=
  ⟨by decide, rfl, rfl⟩

/-- C2 (amended): when the prompt is missing or the empty string (no
trimming is applied), or the credential is missing or empty, the proxy
answers the 400 validation failure and issues no network call at all —
no reference-image fetch, no submission, no poll. -/
theorem c2_validation_fail_fast (req : SubmitRequest) (env : ProxyEnv)
    (h : jsTruthy req.prompt = false ∨ jsTruthy req.apiKey = false) :
    proxyPost env req =
      ⟨ProxyAnswer.answered (ProxyResult.failure (Json.str "Missing prompt or API key") 400),
        none, 0, 0, 0⟩ := by
  unfold proxyPost
  rcases h with h | h <;> simp [h]

/-- Witness for C2 (amended): a request with no prompt is rejected with
the 400 failure and zero network calls. -/
theorem c2_witness :
    jsTruthy (none : Option Json) = false ∧
    proxyPost ⟨"", ⟨true, 200, none, ""⟩, []⟩ ⟨none, some (.str "k"), none, none, none⟩ =
      ⟨ProxyAnswer.answered (ProxyResult.failure (Json.str "Missing prompt or API key") 400),
        none, 0, 0, 0⟩ :=
  ⟨rfl, c2_validation_fail_fast _ _ (Or.inl rfl)⟩

/-- A valid request used to drive the proxy into its post-validation
branches. -/
def c4Req : SubmitRequest := ⟨some (.str "a cat"), some (.str "key"), none, none, none⟩

/-- An environment whose submission response is ok with an empty JSON
object: no sample and no polling handle. -/
def c4Env : ProxyEnv := ⟨"", ⟨true, 200, some (.obj []), ""⟩, []⟩

/-- Counterexample to C4: on a successful submission response with
neither sample nor polling handle the proxy does fail with status 500
and performs no polling, but its message is the string
`No polling URL in response`, not the claimed exact message
`no polling handle in response`. -/
theorem c4_counterexample :
    (proxyPost c4Env c4Req).answer =
      ProxyAnswer.answered (ProxyResult.failure (Json.str "No polling URL in response") 500) ∧
    (proxyPost c4Env c4Req).polls = 0 ∧
    "No polling URL in response" ≠ "no polling handle in response" :=
  ⟨rfl, rfl, by decide⟩

/-- C4 (amended): for every successful submission response containing
neither a truthy direct sample nor a truthy polling handle, the proxy
fails with status 500 and the exact message `No polling URL in response`,
and performs no polling. -/
theorem c4_no_polling_url (req : SubmitRequest) (env : ProxyEnv) (j : Json)
    (hp : jsTruthy req.prompt = true) (hk : jsTruthy req.apiKey = true)
    (hok : env.submitResponse.ok = true) (hb : env.submitResponse.body = some j)
    (hs : jsTruthy (j.get "sample") = false)
    (hpu : jsTruthy (j.get "polling_url") = false) :
    (proxyPost env req).answer =
      ProxyAnswer.answered (ProxyResult.failure (Json.str "No polling URL in response") 500) ∧
    (proxyPost env req).polls = 0 := by
  unfold proxyPost proxySubmitPhase
  simp [hp, hk, hok, hb, hs, hpu]

/-- Witness for C4 (amended): the concrete empty-object submission
response yields the 500 protocol failure with zero polls. -/
theorem c4_witness :
    (proxyPost c4Env c4Req).answer =
      ProxyAnswer.answered (ProxyResult.failure (Json.str "No polling URL in response") 500) ∧
    (proxyPost c4Env c4Req).polls = 0 :=
  c4_no_polling_url c4Req c4Env (.obj []) rfl rfl rfl rfl rfl rfl

/-- Error-message policy written out after the amended specification
wording: prefer a truthy `detail`, else `message`, else `error`; when the
body parsed but none of the three is truthy, the JSON serialization of
the parsed body; when the body did not parse, the raw response text when
non-empty, else the stage's generic message. -/
def specErrorMessage (res : FetchResult) (generic : String) : Json :=
  match res.body with
  | some j =>
    if jsTruthy (j.get "detail") then (j.get "detail").getD Json.null
    else if jsTruthy (j.get "message") then (j.get "message").getD Json.null
    else if jsTruthy (j.get "error") then (j.get "error").getD Json.null
    else .str (Json.stringify j)
  | none => if res.text = "" then .str generic else .str res.text

/-- The source's fallback-chain extraction agrees with the spelled-out
policy. -/
lemma extract_eq_spec (res : FetchResult) (g : String) :
    extractErrorMessage res g = specErrorMessage res g := by
  unfold extractErrorMessage specErrorMessage
  cases res.body with
  | none => rfl
  | some j =>
    cases hd : j.get "detail" <;> cases hm : j.get "message" <;> cases he : j.get "error" <;>
      simp only [firstTruthy, hd, hm, he, Option.getD, jsTruthy] <;>
      split_ifs <;> simp_all

/-- C5 (amended): for every non-success provider response, at
submission or during polling, the proxy's failure message follows the
policy of `specErrorMessage` — `detail`, else `message`, else `error`
(truthy fields only), else the JSON serialization of the parsed body,
else the raw response text when non-empty, else the stage's generic
message, which is `BFL API error (<status>)` at submission and
`Poll error (<status>)` during polling — and the proxy's HTTP status
equals the provider's original status code; a polling-stage error
terminates the loop at that poll. -/
theorem c5_provider_error_policy (req : SubmitRequest) (env : ProxyEnv)
    (hp : jsTruthy req.prompt = true) (hk : jsTruthy req.apiKey = true) :
    (env.submitResponse.ok = false →
      (proxyPost env req).answer =
        ProxyAnswer.answered (ProxyResult.failure
          (specErrorMessage env.submitResponse
            ("BFL API error (" ++ toString env.submitResponse.status ++ ")"))
          env.submitResponse.status)) ∧
    (∀ pre rest r,
      (∀ x ∈ pre, x.ok = true ∧ ∃ jx, x.body = some jx ∧
        strictEqStr (jx.get "status") "Pending" = true) →
      r.ok = false →
      pollLoop (pre ++ r :: rest) =
        PollLoop.done (ProxyResult.failure
          (specErrorMessage r ("Poll error (" ++ toString r.status ++ ")")) r.status)
          (pre.length + 1)) := by
  constructor
  · intro hko
    unfold proxyPost proxySubmitPhase
    simp [hp, hk, hko, extract_eq_spec]
  · intro pre rest r hpre hko
    have hhead : pollLoop (r :: rest) =
        PollLoop.done (ProxyResult.failure
          (specErrorMessage r ("Poll error (" ++ toString r.status ++ ")")) r.status) 1 := by
      simp [pollLoop, pollStep, hko, extract_eq_spec]
    rw [pollLoop_append_pending pre (r :: rest) hpre _ 1 hhead, Nat.add_comm]

/-- A valid request used to exercise the provider-error policy. -/
def c5xReq : SubmitRequest := ⟨some (.str "a cat"), some (.str "key"), none, none, none⟩

/-- A submission environment whose provider response is non-success with
an unparseable, empty body. -/
def c5xEnv : ProxyEnv := ⟨"", ⟨false, 418, none, ""⟩, []⟩

/-- Counterexample to C5: with an unparseable empty error body the
generic fallback message is `BFL API error (418)`, not the claimed
generic string `error (418)`; (the status is preserved as claimed). -/
theorem c5_counterexample :
    (proxyPost c5xEnv c5xReq).answer =
      ProxyAnswer.answered (ProxyResult.failure (Json.str "BFL API error (418)") 418) ∧
    "BFL API error (418)" ≠ "error (418)" :=
  ⟨rfl, by decide⟩

/-- A valid request whose submission is rejected by the provider. -/
def c5wReq : SubmitRequest := ⟨some (.str "a cat"), some (.str "bad-key"), none, none, none⟩

/-- A submission environment answering 401 with a structured `detail`
field. -/
def c5wEnv : ProxyEnv :=
  ⟨"", ⟨false, 401, some (.obj [("detail", .str "Invalid API key")]), ""⟩, []⟩

/-- Witness for C5 (amended): a 401 submission response with a `detail`
field propagates that message and the 401 status. -/
theorem c5_witness :
    (proxyPost c5wEnv c5wReq).answer =
      ProxyAnswer.answered (ProxyResult.failure (Json.str "Invalid API key") 401) := by
  have h := (c5_provider_error_policy c5wReq c5wEnv rfl rfl).1 rfl
  exact h.trans (by rfl)

/-- C10: a request supplying a truthy inline base64 image has that value
forwarded unchanged as `input_image` in the submitted payload, the
source-image URL is never fetched (zero reference fetches), and the two
fields are not mutually rejected — the submission is issued. -/
theorem c10_inline_image_precedence (req : SubmitRequest) (env : ProxyEnv)
    (hp : jsTruthy req.prompt = true) (hk : jsTruthy req.apiKey = true)
    (hi : jsTruthy req.image = true) :
    (proxyPost env req).refFetches = 0 ∧
    (proxyPost env req).sentBody =
      some ⟨req.prompt.getD Json.null, 768, 768, false, req.image⟩ ∧
    (proxyPost env req).submits = 1 := by
  unfold proxyPost
  simp [hp, hk, hi]

/-- Witness for C10: a request with both an inline image and a source
URL forwards the inline image and never fetches the URL. -/
theorem c10_witness :
    (proxyPost ⟨"fetched", ⟨true, 200, some (.obj [("sample", .str "https://x/a.png")]), ""⟩, []⟩
        ⟨some (.str "a cat"), some (.str "k"), some (.str "AAAA"), some (.str "https://x/ref.png"), none⟩).refFetches = 0 ∧
    (proxyPost ⟨"fetched", ⟨true, 200, some (.obj [("sample", .str "https://x/a.png")]), ""⟩, []⟩
        ⟨some (.str "a cat"), some (.str "k"), some (.str "AAAA"), some (.str "https://x/ref.png"), none⟩).sentBody =
      some ⟨.str "a cat", 768, 768, false, some (.str "AAAA")⟩ :=
  have h := c10_inline_image_precedence
    ⟨some (.str "a cat"), some (.str "k"), some (.str "AAAA"), some (.str "https://x/ref.png"), none⟩
    ⟨"fetched", ⟨true, 200, some (.obj [("sample", .str "https://x/a.png")]), ""⟩, []⟩
    rfl rfl rfl
  ⟨h.1, h.2.1⟩

/-- C3: a trigger while a generation attempt is in flight is a no-op on
both the state and the network (and so is a trigger with an empty
trimmed prompt), and a burst of three triggers in direct succession —
none of which resolves before the next — issues exactly one proxy
invocation. -/
theorem c3_concurrency_guard (s : ControllerState) :
    (s.isGenerating = true → triggerSync s = (s, 0)) ∧
    (jsTrim s.prompt = "" → triggerSync s = (s, 0)) ∧
    (s.isGenerating = false → jsTrim s.prompt ≠ "" → s.apiKey ≠ "" →
      (triggerTimes 3 s).2 = 1) := by
  refine ⟨?_, ?_, ?_⟩
  · intro h
    simp [triggerSync, h]
  · intro h
    simp [triggerSync, h]
  · intro hg hprompt hk
    have h1 : triggerSync s =
        ({ s with isGenerating := true, showLoading := true, loadingComplete := false,
                  genTime := "0.0s", timerRunning := true }, 1) := by
      simp [triggerSync, hg, hprompt, hk]
    have h2 :
        triggerSync
          ({ s with isGenerating := true, showLoading := true, loadingComplete := false,
                    genTime := "0.0s", timerRunning := true } : ControllerState) =
        ({ s with isGenerating := true, showLoading := true, loadingComplete := false,
                  genTime := "0.0s", timerRunning := true }, 0) := by
      simp [triggerSync]
    simp [triggerTimes, h1, h2]

/-- An idle controller with a prompt and a key, about to generate. -/
def c3wState : ControllerState :=
  { initController with prompt := "a cat", apiKey := "test-key" }

/-- Witness for C3: from the idle configured state, three triggers in
succession issue exactly one proxy invocation. -/
theorem c3_witness :
    jsTrim c3wState.prompt ≠ "" ∧ (triggerTimes 3 c3wState).2 = 1 :=
  ⟨by decide, (c3_concurrency_guard c3wState).2.2 rfl (by decide) (by decide)⟩

/-- An idle controller with a prompt but no credential. -/
def c6State : ControllerState := { initController with prompt := "a cat" }

/-- An arbitrary attempt environment (never reached over the network in
the no-credential scenario). -/
def c6Env : AttemptEnv := ⟨⟨true, 200, some ⟨some "https://x/img.png", none⟩⟩, true, "0.0"⟩

/-- Counterexample to C6: triggering with a non-empty prompt and no
credential does alert and issues no network call, but the controller
does transition: the generating flag is set (and the elapsed-time
interval started) before the credential check, which lives inside
generateImage. -/
theorem c6_counterexample :
    (handleGenerate c6Env c6State).2.timerStarts = 1 ∧
    (handleGenerate c6Env c6State).2.generatingSet = 1 ∧
    (handleGenerate c6Env c6State).2.networkCalls = 0 ∧
    (handleGenerate c6Env c6State).2.alerts = ["Please enter your BFL API key"] := by
  refine ⟨by decide, by decide, by decide, by decide⟩

/-- C6 (amended): a trigger with a non-empty trimmed prompt and no
configured credential raises the user-facing warning and issues no
network call, but only after transiently entering the generating state
and starting (then stopping) the elapsed-time readout; the attempt ends
not generating, with the readout showing the elapsed time. -/
theorem c6_no_credential (s : ControllerState) (env : AttemptEnv)
    (hg : s.isGenerating = false) (hprompt : jsTrim s.prompt ≠ "") (hk : s.apiKey = "") :
    (handleGenerate env s).2.networkCalls = 0 ∧
    (handleGenerate env s).2.alerts = ["Please enter your BFL API key"] ∧
    (handleGenerate env s).2.generatingSet = 1 ∧
    (handleGenerate env s).2.timerStarts = 1 ∧
    (handleGenerate env s).2.timerStops = 1 ∧
    (handleGenerate env s).1.isGenerating = false ∧
    (handleGenerate env s).1.genTime = env.elapsed ++ "s" := by
  unfold handleGenerate generateImage
  simp [hg, hprompt, hk]

/-- Witness for C6 (amended): the concrete no-credential trigger. -/
theorem c6_witness :
    (handleGenerate c6Env c6State).2.networkCalls = 0 ∧
    (handleGenerate c6Env c6State).1.isGenerating = false :=
  have h := c6_no_credential c6State c6Env rfl (by decide) rfl
  ⟨h.1, h.2.2.2.2.2.1⟩

/-- The attempt paths on which handleGenerate reaches its catch block:
the fetch body does not parse, the proxy response is non-ok, or a truthy
result URL fails to preload (all of them require a configured key, since
the no-key attempt resolves without throwing). -/
def attemptRaises (s : ControllerState) (env : AttemptEnv) : Bool :=
  (!(s.apiKey == "")) &&
    (match env.fetch.body with
      | none => true
      | some b => if env.fetch.ok then strTruthy b.url && !env.preloadOk else true)

/-- The attempt path on which the timer-stop is invoked twice: a truthy
result URL whose preload fails, after the post-resolution stop already
ran. -/
def preloadFailurePath (s : ControllerState) (env : AttemptEnv) : Bool :=
  (!(s.apiKey == "")) && env.fetch.ok &&
    (match env.fetch.body with
      | some b => strTruthy b.url
      | none => false) && !env.preloadOk

/-- An idle controller with a prompt but no credential (C7 trace a). -/
def c7aState : ControllerState := { initController with prompt := "hello" }

/-- Environment for C7 trace a (never consulted on the no-key path). -/
def c7aEnv : AttemptEnv := ⟨⟨true, 200, some ⟨some "https://x/a.png", none⟩⟩, true, "0.0"⟩

/-- An idle configured controller (C7 trace b). -/
def c7bState : ControllerState :=
  { initController with prompt := "hello", apiKey := "test-key" }

/-- Environment for C7 trace b: a successful proxy response whose image
fails to preload. -/
def c7bEnv : AttemptEnv := ⟨⟨true, 200, some ⟨some "https://x/a.png", none⟩⟩, false, "1.2"⟩

/-- Counterexample to C7: (a) on the no-credential validation failure
the displayed elapsed-time readout is left showing `0.0s`, not cleared
to empty; (b) on a preload failure the timer stop is invoked twice in
the attempt, not exactly once. -/
theorem c7_counterexample :
    (handleGenerate c7aEnv c7aState).1.genTime = "0.0s" ∧
    (handleGenerate c7aEnv c7aState).2.alerts = ["Please enter your BFL API key"] ∧
    "0.0s" ≠ "" ∧
    (handleGenerate c7bEnv c7bState).2.timerStops = 2 :=
  ⟨by decide, by decide, by decide, by decide⟩

/-- C7 (amended): on every attempt that passes the guard the timer is
started exactly once and is never left running when the attempt ends;
the stop is invoked exactly once, except on a preload failure where a
second (redundant) stop runs in the catch block; and the displayed
readout is cleared to empty exactly on the paths that reach the catch
block — a network/provider error or a preload error — while the
no-credential validation failure leaves the final elapsed reading
displayed. -/
theorem c7_timer_discipline (s : ControllerState) (env : AttemptEnv)
    (hg : s.isGenerating = false) (hprompt : jsTrim s.prompt ≠ "") :
    (handleGenerate env s).1.timerRunning = false ∧
    (handleGenerate env s).2.timerStarts = 1 ∧
    (handleGenerate env s).2.timerStops = (if preloadFailurePath s env then 2 else 1) ∧
    (attemptRaises s env = true → (handleGenerate env s).1.genTime = "") := by
  by_cases hk : s.apiKey = ""
  · unfold handleGenerate generateImage attemptRaises preloadFailurePath
    simp [hg, hprompt, hk]
  · cases henv : env.fetch with
  | mk fok fst fbody =>
    cases fbody with
    | none =>
      unfold handleGenerate generateImage attemptRaises preloadFailurePath
      simp [hg, hprompt, hk, henv]
    | some b =>
      cases fok with
      | false =>
        unfold handleGenerate generateImage attemptRaises preloadFailurePath
        simp [hg, hprompt, hk, henv]
      | true =>
        cases hurl : b.url with
        | none =>
          unfold handleGenerate generateImage attemptRaises preloadFailurePath
          simp [hg, hprompt, hk, henv, hurl, strTruthy]
        | some u =>
          by_cases hu : u = ""
          · unfold handleGenerate generateImage attemptRaises preloadFailurePath
            simp [hg, hprompt, hk, henv, hurl, hu, strTruthy]
          · cases hpl : env.preloadOk with
            | true =>
              unfold handleGenerate generateImage attemptRaises preloadFailurePath
              cases hcur : s.currentImageUrl <;>
                simp [hg, hprompt, hk, henv, hurl, hu, hpl, hcur, strTruthy]
            | false =>
              unfold handleGenerate generateImage attemptRaises preloadFailurePath
              simp [hg, hprompt, hk, henv, hurl, hu, hpl, strTruthy]

/-- Witness for C7 (amended): on a provider-error attempt from the
configured idle state, the timer ends stopped after exactly one stop and
the readout is cleared. -/
theorem c7_witness :
    (handleGenerate ⟨⟨false, 500, some ⟨none, some "Server error"⟩⟩, true, "2.0"⟩ c7bState).1.timerRunning = false ∧
    (handleGenerate ⟨⟨false, 500, some ⟨none, some "Server error"⟩⟩, true, "2.0"⟩ c7bState).2.timerStops = 1 ∧
    (handleGenerate ⟨⟨false, 500, some ⟨none, some "Server error"⟩⟩, true, "2.0"⟩ c7bState).1.genTime = "" :=
  have h := c7_timer_discipline c7bState ⟨⟨false, 500, some ⟨none, some "Server error"⟩⟩, true, "2.0"⟩
    rfl (by decide)
  ⟨h.1, by
    have h3 := h.2.2.1
    simpa [preloadFailurePath, c7bState, initController] using h3,
    h.2.2.2 (by decide)⟩

/-- C8: a successful generation performed while a current image exists
demotes that image to previous and promotes the fresh result URL to
current. -/
theorem c8_crossfade (s : ControllerState) (u v el : String) (st : Nat) (e : Option String)
    (hg : s.isGenerating = false) (hprompt : jsTrim s.prompt ≠ "")
    (hk : s.apiKey ≠ "") (hcur : s.currentImageUrl = some u) (hv : v ≠ "") :
    (handleGenerate ⟨⟨true, st, some ⟨some v, e⟩⟩, true, el⟩ s).1.previousImageUrl = some u ∧
    (handleGenerate ⟨⟨true, st, some ⟨some v, e⟩⟩, true, el⟩ s).1.currentImageUrl = some v := by
  unfold handleGenerate generateImage
  simp [hg, hprompt, hk, hcur, hv]

/-- A controller that already holds a current image, in edit-free idle
state, about to run its second generation. -/
def c8State : ControllerState :=
  { initController with prompt := "a cat", apiKey := "test-key",
                        currentImageUrl := some "https://x/first.png" }

/-- Witness for C8: the second success moves the first URL to previous
and installs the new URL as current. -/
theorem c8_witness :
    (handleGenerate ⟨⟨true, 200, some ⟨some "https://x/second.png", none⟩⟩, true, "1.0"⟩ c8State).1.previousImageUrl = some "https://x/first.png" ∧
    (handleGenerate ⟨⟨true, 200, some ⟨some "https://x/second.png", none⟩⟩, true, "1.0"⟩ c8State).1.currentImageUrl = some "https://x/second.png" :=
  c8_crossfade c8State "https://x/first.png" "https://x/second.png" "1.0" 200 none
    rfl (by decide) (by decide) rfl (by decide)

/-- Counterexample to C9: a drag-leave without a matching drag-enter
drives the counter negative, after which one drag-enter leaves the
counter at zero while the visual drag-active state is true — so the
drag-active state is not true only while the counter is positive. -/
theorem c9_counterexample :
    (runDrag initController [DragEvent.leave, DragEvent.enter]).dragCounter = 0 ∧
    (runDrag initController [DragEvent.leave, DragEvent.enter]).isDragOver = true :=
  ⟨by decide, by decide⟩

/-- Invariant carried through well-nested drag-event runs: the counter
stays non-negative and the drag-active state holds exactly while it is
positive. -/
lemma dragRun_inv (es : List DragEvent) (s : ControllerState)
    (hc : 0 ≤ s.dragCounter) (hinv : s.isDragOver = true ↔ 0 < s.dragCounter)
    (hsafe : dragSafe s.dragCounter es = true) :
    0 ≤ (runDrag s es).dragCounter ∧
    ((runDrag s es).isDragOver = true ↔ 0 < (runDrag s es).dragCounter) := by
  induction es generalizing s with
  | nil => exact ⟨hc, hinv⟩
  | cons e es ih =>
    cases e with
    | enter =>
      refine ih { s with dragCounter := s.dragCounter + 1, isDragOver := true } ?_ ?_ ?_
      · show 0 ≤ s.dragCounter + 1
        omega
      · show (true : Bool) = true ↔ 0 < s.dragCounter + 1
        simp
        omega
      · exact hsafe
    | leave =>
      have hpos : 0 < s.dragCounter := by
        have h2 := hsafe
        simp [dragSafe] at h2
        exact h2.1
      have hsafe2 : dragSafe (s.dragCounter - 1) es = true := by
        simp [dragSafe] at hsafe
        exact hsafe.2
      refine ih
        { s with dragCounter := s.dragCounter - 1,
                 isDragOver := if s.dragCounter - 1 = 0 then false else s.isDragOver } ?_ ?_ ?_
      · show 0 ≤ s.dragCounter - 1
        omega
      · show (if s.dragCounter - 1 = 0 then false else s.isDragOver) = true ↔ 0 < s.dragCounter - 1
        by_cases hz : s.dragCounter - 1 = 0
        · rw [if_pos hz, hz]
          simp
        · rw [if_neg hz, hinv]
          omega
      · exact hsafe2
    | drop =>
      refine ih { s with dragCounter := 0, isDragOver := false } ?_ ?_ ?_
      · show (0 : Int) ≤ 0
        omega
      · show (false : Bool) = true ↔ (0 : Int) < 0
        simp
      · exact hsafe

/-- C9 (amended): over every drag-event sequence that is well nested —
no drag-leave fires while the counter is zero — starting from the reset
drag state, the visual drag-active state is true exactly while the
counter is positive; and independently of any well-nestedness, a drop
forces the counter to zero and clears the drag-active state from any
state. -/
theorem c9_drag_counter (es : List DragEvent) (s : ControllerState)
    (hc : s.dragCounter = 0) (ho : s.isDragOver = false)
    (hsafe : dragSafe 0 es = true) :
    ((runDrag s es).isDragOver = true ↔ 0 < (runDrag s es).dragCounter) ∧
    (∀ t : ControllerState,
      (dragStep t DragEvent.drop).dragCounter = 0 ∧
      (dragStep t DragEvent.drop).isDragOver = false) := by
  constructor
  · have h := dragRun_inv es s (by omega) (by simp [ho, hc]) (by simpa [hc] using hsafe)
    exact h.2
  · intro t
    exact ⟨rfl, rfl⟩

/-- Witness for C9 (amended): a nested enter-enter-leave sequence keeps
drag-active on with the counter at one. -/
theorem c9_witness :
    dragSafe 0 [DragEvent.enter, DragEvent.enter, DragEvent.leave] = true ∧
    ((runDrag initController [DragEvent.enter, DragEvent.enter, DragEvent.leave]).isDragOver = true ↔
      0 < (runDrag initController [DragEvent.enter, DragEvent.enter, DragEvent.leave]).dragCounter) :=
  ⟨by decide,
    (c9_drag_counter [DragEvent.enter, DragEvent.enter, DragEvent.leave] initController
      rfl rfl (by decide)).1⟩
